import Mathlib

/-!
Verification of the virtualobserver core against its natural-language
specification.  The Python sources under src/ are shallowly embedded:
pure functions become Lean functions over exact rationals and lists,
stateful orchestration becomes explicit state passing, and Python
exceptions become an explicit error type threaded through Except.
-/

namespace VirtualObserver

/-- Python exception classes that appear in the modelled code paths.
The constructor configurationError is not raised by any code under src;
it models the ConfigurationError taxonomy label of the specification
(section 7) so that statements about which exception class is raised can
be expressed. -/
inductive PyExc where
  | valueError (msg : String)
  | typeError (msg : String)
  | keyError (msg : String)
  | runtimeError (msg : String)
  | configurationError (msg : String)
  | otherError (msg : String)
  deriving DecidableEq

/-- Substring test on character lists: the Python test `pat in s`. -/
def charsHaveSub (pat : List Char) : List Char → Bool
  | [] => pat.isEmpty
  | c :: rest => pat.isPrefixOf (c :: rest) || charsHaveSub pat rest

/-- Substring test on strings, modelling the Python expression `pat in s`. -/
def strHasSub (s pat : String) : Bool := charsHaveSub pat.data s.data

theorem charsHaveSub_cons (pat : List Char) (c : Char) (l : List Char)
    (h : charsHaveSub pat l = true) : charsHaveSub pat (c :: l) = true := by
  unfold charsHaveSub
  cases pat with
  | nil => rfl
  | cons p ps => simp only [Bool.or_eq_true]; exact Or.inr h

theorem charsHaveSub_append_left (pat l1 l : List Char)
    (h : charsHaveSub pat l = true) : charsHaveSub pat (l1 ++ l) = true := by
  induction l1 with
  | nil => exact h
  | cons c cs ih => exact charsHaveSub_cons pat c (cs ++ l) ih

theorem isPrefixOf_append_self (pat rest : List Char) :
    pat.isPrefixOf (pat ++ rest) = true := by
  induction pat with
  | nil => simp [List.isPrefixOf]
  | cons c cs ih =>
    simp [List.isPrefixOf, ih]

theorem charsHaveSub_self_append (pat rest : List Char) :
    charsHaveSub pat (pat ++ rest) = true := by
  cases hp : pat ++ rest with
  | nil =>
    have : pat = [] := by
      cases pat with
      | nil => rfl
      | cons c cs => simp at hp
    simp [charsHaveSub, this]
  | cons c cs =>
    rw [charsHaveSub, ← hp, Bool.or_eq_true]
    exact Or.inl (isPrefixOf_append_self pat rest)

/-! ## Parameter store (src/parameters.py)

A Parameters object is modelled by the list of required parameter names
given to the constructor together with the attribute dictionary that
external code has assigned so far.  An attribute may be assigned the
Python value None and still counts as assigned (hasattr is true). -/

/-- Python values that can be assigned to a parameter attribute. -/
inductive PyVal where
  | pyNone
  | pyBool (b : Bool)
  | pyInt (n : Int)
  | pyStr (s : String)
  deriving DecidableEq

/-- A Parameters object: the required names and the assigned attributes. -/
structure ParametersObj where
  required_pars : List String
  attrs : List (String × PyVal)
  deriving DecidableEq

/-- Python hasattr on the modelled attribute dictionary. -/
def ParametersObj.hasattr (p : ParametersObj) (name : String) : Bool :=
  p.attrs.any (fun kv => kv.fst == name)

/-- Parameters.verify: iterate over required_pars and raise ValueError at
the first name that has never been assigned as an attribute. -/
def ParametersObj.verify (p : ParametersObj) : Except PyExc Unit :=
  match p.required_pars.find? (fun q => ! p.hasattr q) with
  | Option.some q =>
      Except.error (PyExc.valueError ("Parameter " ++ q ++ " is not set."))
  | Option.none => Except.ok ()

theorem verify_ok_iff (p : ParametersObj) :
    p.verify = Except.ok () ↔ ∀ q ∈ p.required_pars, p.hasattr q = true := by
  unfold ParametersObj.verify
  constructor
  · intro h q hq
    cases hfind : p.required_pars.find? (fun q => ! p.hasattr q) with
    | some q0 => rw [hfind] at h; exact absurd h (by simp)
    | none =>
      have := List.find?_eq_none.mp hfind q hq
      simpa using this
  · intro h
    cases hfind : p.required_pars.find? (fun q => ! p.hasattr q) with
    | some q0 =>
      have hmem := List.mem_of_find?_eq_some hfind
      have hprop := List.find?_some hfind
      have := h q0 hmem
      rw [this] at hprop
      simp at hprop
    | none => rfl

theorem verify_error_shape (p : ParametersObj) :
    p.verify = Except.ok ()
    ∨ ∃ q msg, p.verify = Except.error (PyExc.valueError msg)
        ∧ q ∈ p.required_pars ∧ p.hasattr q = false := by
  unfold ParametersObj.verify
  cases hfind : p.required_pars.find? (fun q => ! p.hasattr q) with
  | none => exact Or.inl rfl
  | some q0 =>
    refine Or.inr ⟨q0, "Parameter " ++ q0 ++ " is not set.", rfl,
      List.mem_of_find?_eq_some hfind, ?_⟩
    have hprop := List.find?_some hfind
    simpa using hprop

/-- C9 (amended): Parameters.verify fails with a ValueError when some name in
the required set has never been assigned as an attribute, and returns normally
when every required name has been assigned, including when a required name is
assigned the value None. -/
theorem C9_verify_required_assigned (p : ParametersObj) :
    (p.verify = Except.ok () ↔ ∀ q ∈ p.required_pars, p.hasattr q = true)
    ∧ (∀ q, (q, PyVal.pyNone) ∈ p.attrs → p.hasattr q = true)
    ∧ (p.verify = Except.ok ()
        ∨ ∃ q msg, p.verify = Except.error (PyExc.valueError msg)
            ∧ q ∈ p.required_pars ∧ p.hasattr q = false) := by
  refine ⟨verify_ok_iff p, ?_, verify_error_shape p⟩
  intro q hq
  unfold ParametersObj.hasattr
  rw [List.any_eq_true]
  exact ⟨(q, PyVal.pyNone), hq, by simp⟩

/-- C9 counterexample: a Parameters object with required name x never
assigned fails with a ValueError, not with the ConfigurationError class the
claim names (no code under src raises a ConfigurationError). -/
theorem C9_counterexample_valueError_not_configurationError :
    ParametersObj.verify ⟨["x"], []⟩
      = Except.error (PyExc.valueError "Parameter x is not set.")
    ∧ (∀ msg, ParametersObj.verify ⟨["x"], []⟩
        ≠ Except.error (PyExc.configurationError msg)) := by
  constructor
  · rfl
  · intro msg h
    rw [show ParametersObj.verify ⟨["x"], []⟩
        = Except.error (PyExc.valueError "Parameter x is not set.") from rfl] at h
    simp at h

/-! ## Histogram (src/histogram.py)

A coordinate axis is modelled by its role (score or common), whether it was
created dynamic, and its current number of bin values.  A fixed axis created
from a (start, stop, step) tuple gets the bin values
np.arange(start, stop + step, step); a dynamic axis starts with zero values
(empty specs) or one value (a (value, step) pair). -/

namespace Histogram

/-- Length of np.arange(start, stop + step, step) over exact rationals: the
number of naturals k with start + k * step below stop + step. -/
def arangeLen (start stop step : ℚ) : ℕ :=
  (⌈(stop + step - start) / step⌉).toNat

/-- Bin values of a fixed coordinate axis, as create_coordinate builds them
from a (start, stop, step) tuple: np.arange(start, stop + step, step). -/
def fixedAxisEdges (start stop step : ℚ) : List ℚ :=
  (List.range (arangeLen start stop step)).map (fun i : ℕ => start + (i : ℚ) * step)

/-- Histogram.add_data exactly as the source defines it (histogram.py lines
280 and 281): its body is pass, so whatever the data value and the score
value are, the count arrays are returned unchanged and no exception is
raised. -/
def add_data (counts : List ℕ) (data score : ℚ) : List ℕ × Option PyExc :=
  (counts, Option.none)

theorem arangeLen_exact (start step : ℚ) (k : ℕ) (h : 0 < step) :
    arangeLen start (start + k * step) step = k + 1 := by
  unfold arangeLen
  have hs : step ≠ 0 := ne_of_gt h
  have h1 : (start + k * step + step - start) / step = ((k : ℚ) + 1) := by
    field_simp
    ring
  rw [h1, show ((k : ℚ) + 1) = ((k + 1 : ℤ) : ℚ) by push_cast; ring,
    Int.ceil_intCast]
  simp

theorem fixedAxisEdges_exact (start step : ℚ) (k : ℕ) (h : 0 < step) :
    fixedAxisEdges start (start + k * step) step
      = (List.range (k + 1)).map (fun i : ℕ => start + (i : ℚ) * step) := by
  unfold fixedAxisEdges
  rw [arangeLen_exact start step k h]

theorem rangeMapHead (k : ℕ) (f : ℕ → ℚ) :
    ((List.range (k + 1)).map f).head? = Option.some (f 0) := by
  rw [List.range_succ_eq_map]
  rfl

theorem rangeMapLast (k : ℕ) (f : ℕ → ℚ) :
    ((List.range (k + 1)).map f).getLast? = Option.some (f k) := by
  rw [List.range_succ, List.map_append]
  exact List.getLast?_concat _

/-- C8: the fixed default snr axis (-10, 10, 0.1) that create_coordinate
builds does have its first bin value exactly at start and its last exactly at
stop, but Histogram.add_data is an empty stub: for every histogram state and
every value - at start, at stop, below start or above stop alike - it returns
the counts unchanged and raises nothing, so no value lands in a bin and no
out-of-range value fails with ValueError. -/
theorem C8_add_data_stub_no_valueError (counts : List ℕ) (v score : ℚ) :
    (fixedAxisEdges (-10) 10 (1/10)).head? = Option.some (-10)
    ∧ (fixedAxisEdges (-10) 10 (1/10)).getLast? = Option.some 10
    ∧ add_data counts v score = (counts, Option.none)
    ∧ add_data counts (-11) score = (counts, Option.none) := by
  have hedges : fixedAxisEdges (-10) 10 (1/10)
      = fixedAxisEdges (-10) (-10 + (200 : ℕ) * (1/10)) (1/10) := by
    norm_num
  have hexact := fixedAxisEdges_exact (-10) (1/10) 200 (by norm_num)
  refine ⟨?_, ?_, rfl, rfl⟩
  · rw [hedges, hexact, rangeMapHead]
    norm_num
  · rw [hedges, hexact, rangeMapLast]
    norm_num

/-- A coordinate axis of the histogram: its role, whether it is dynamic, and
its current number of bin values. -/
structure Coord where
  isScore : Bool
  isDynamic : Bool
  axLen : ℕ
  deriving DecidableEq

/-- Histogram.get_size_estimate in bytes (unit divisor 1): the product over
non-score coordinates of the axis length (or dynCoordSize when at most one
value is present), times the sum over score coordinates of the axis length
(or dynScoreSize when at most one value is present), times the dtype item
size. -/
def get_size_estimate (coords : List Coord) (itemsize dynCoordSize dynScoreSize : ℕ) : ℕ :=
  ((coords.filter (fun c => ! c.isScore)).foldl
      (fun acc c => acc * (if c.axLen ≤ 1 then dynCoordSize else c.axLen)) 1)
    * ((coords.filter (fun c => c.isScore)).foldl
      (fun acc c => acc + (if c.axLen ≤ 1 then dynScoreSize else c.axLen)) 0)
    * itemsize

/-- Modelled from the spec: the size formula the claim states, for comparison
with get_size_estimate: 3 to the number of dynamic coordinate (non-score)
axes, times the sum of the filled score-axis lengths plus 100 times the
number of dynamic score axes, times the dtype item size. -/
def claimedSizeEstimate (coords : List Coord) (itemsize : ℕ) : ℕ :=
  3 ^ ((coords.filter (fun c => ! c.isScore && c.isDynamic)).length)
    * (((coords.filter (fun c => c.isScore && ! c.isDynamic)).map Coord.axLen).sum
        + 100 * ((coords.filter (fun c => c.isScore && c.isDynamic)).length))
    * itemsize

/-- Coordinates of the default Histogram configuration built by
initialize_data: score axes snr (-10, 10, 0.1) and dmag (-3, 3, 0.1), source
axis mag (15, 21, 0.5), obs axes exptime (30, 1) (dynamic with step, one
starting value) and filt () (dynamic, empty). -/
def defaultCoords : List Coord :=
  [ ⟨true, false, arangeLen (-10) 10 (1/10)⟩
  , ⟨true, false, arangeLen (-3) 3 (1/10)⟩
  , ⟨false, false, arangeLen 15 21 (1/2)⟩
  , ⟨false, true, 1⟩
  , ⟨false, true, 0⟩ ]

theorem defaultCoords_eval :
    defaultCoords
      = [⟨true, false, 201⟩, ⟨true, false, 61⟩, ⟨false, false, 13⟩,
          ⟨false, true, 1⟩, ⟨false, true, 0⟩] := by
  have h1 : arangeLen (-10) 10 (1/10) = 201 := by
    unfold arangeLen
    norm_num
    decide
  have h2 : arangeLen (-3) 3 (1/10) = 61 := by
    unfold arangeLen
    norm_num
    decide
  have h3 : arangeLen 15 21 (1/2) = 13 := by
    unfold arangeLen
    norm_num
    decide
  unfold defaultCoords
  rw [h1, h2, h3]

/-- C7 counterexample: on the default histogram configuration, whose dynamic
axes are all unfilled, the byte estimate computed by get_size_estimate with
dynamic sizes 3 and 100 is 122616 (it also multiplies by the length 13 of the
fixed non-score axis mag), while the formula the claim states gives 9432. -/
theorem C7_counterexample_default_config :
    (∀ c ∈ defaultCoords, c.isDynamic = true → c.axLen ≤ 1)
    ∧ get_size_estimate defaultCoords 4 3 100 = 122616
    ∧ claimedSizeEstimate defaultCoords 4 = 9432
    ∧ get_size_estimate defaultCoords 4 3 100 ≠ claimedSizeEstimate defaultCoords 4 := by
  rw [defaultCoords_eval]
  refine ⟨?_, ?_, ?_, ?_⟩ <;> decide

theorem foldl_mul_map (f : Coord → ℕ) (l : List Coord) :
    ∀ a : ℕ, l.foldl (fun acc c => acc * f c) a = a * (l.map f).prod := by
  induction l with
  | nil => intro a; simp
  | cons c cs ih =>
    intro a
    simp only [List.foldl_cons, List.map_cons, List.prod_cons, ih (a * f c)]
    ring

theorem foldl_add_map (f : Coord → ℕ) (l : List Coord) :
    ∀ a : ℕ, l.foldl (fun acc c => acc + f c) a = a + (l.map f).sum := by
  induction l with
  | nil => intro a; simp
  | cons c cs ih =>
    intro a
    simp only [List.foldl_cons, List.map_cons, List.sum_cons, ih (a + f c)]
    ring

theorem commonSizeLemma (l : List Coord)
    (hdyn : ∀ c ∈ l, c.isDynamic = true → c.axLen ≤ 1)
    (hfix : ∀ c ∈ l, c.isDynamic = false → 2 ≤ c.axLen) :
    ((l.filter (fun c => ! c.isScore)).map
        (fun c => if c.axLen ≤ 1 then 3 else c.axLen)).prod
      = 3 ^ ((l.filter (fun c => ! c.isScore && c.isDynamic)).length)
        * ((l.filter (fun c => ! c.isScore && ! c.isDynamic)).map Coord.axLen).prod := by
  induction l with
  | nil => simp
  | cons c cs ih =>
    have hdyn2 : ∀ x ∈ cs, x.isDynamic = true → x.axLen ≤ 1 :=
      fun x hx => hdyn x (List.mem_cons_of_mem c hx)
    have hfix2 : ∀ x ∈ cs, x.isDynamic = false → 2 ≤ x.axLen :=
      fun x hx => hfix x (List.mem_cons_of_mem c hx)
    have ihr := ih hdyn2 hfix2
    cases hs : c.isScore with
    | true => simpa [List.filter_cons, hs] using ihr
    | false =>
      have e1 : (c :: cs).filter (fun x => ! x.isScore)
          = c :: cs.filter (fun x => ! x.isScore) := by
        simp [List.filter_cons, hs]
      cases hd : c.isDynamic with
      | true =>
        have hlen : c.axLen ≤ 1 := hdyn c (List.mem_cons_self c cs) hd
        have e2 : (c :: cs).filter (fun x => ! x.isScore && x.isDynamic)
            = c :: cs.filter (fun x => ! x.isScore && x.isDynamic) := by
          simp [List.filter_cons, hs, hd]
        have e3 : (c :: cs).filter (fun x => ! x.isScore && ! x.isDynamic)
            = cs.filter (fun x => ! x.isScore && ! x.isDynamic) := by
          simp [List.filter_cons, hs, hd]
        rw [e1, e2, e3, List.map_cons, List.prod_cons, List.length_cons,
          if_pos hlen, ihr]
        ring
      | false =>
        have hlen : 2 ≤ c.axLen := hfix c (List.mem_cons_self c cs) hd
        have hnle : ¬ c.axLen ≤ 1 := by omega
        have e2 : (c :: cs).filter (fun x => ! x.isScore && x.isDynamic)
            = cs.filter (fun x => ! x.isScore && x.isDynamic) := by
          simp [List.filter_cons, hs, hd]
        have e3 : (c :: cs).filter (fun x => ! x.isScore && ! x.isDynamic)
            = c :: cs.filter (fun x => ! x.isScore && ! x.isDynamic) := by
          simp [List.filter_cons, hs, hd]
        rw [e1, e2, e3, List.map_cons, List.prod_cons, List.map_cons,
          List.prod_cons, if_neg hnle, ihr]
        ring

theorem scoreSizeLemma (l : List Coord)
    (hdyn : ∀ c ∈ l, c.isDynamic = true → c.axLen ≤ 1)
    (hfix : ∀ c ∈ l, c.isDynamic = false → 2 ≤ c.axLen) :
    ((l.filter (fun c => c.isScore)).map
        (fun c => if c.axLen ≤ 1 then 100 else c.axLen)).sum
      = ((l.filter (fun c => c.isScore && ! c.isDynamic)).map Coord.axLen).sum
        + 100 * ((l.filter (fun c => c.isScore && c.isDynamic)).length) := by
  induction l with
  | nil => simp
  | cons c cs ih =>
    have hdyn2 : ∀ x ∈ cs, x.isDynamic = true → x.axLen ≤ 1 :=
      fun x hx => hdyn x (List.mem_cons_of_mem c hx)
    have hfix2 : ∀ x ∈ cs, x.isDynamic = false → 2 ≤ x.axLen :=
      fun x hx => hfix x (List.mem_cons_of_mem c hx)
    have ihr := ih hdyn2 hfix2
    cases hs : c.isScore with
    | false => simpa [List.filter_cons, hs] using ihr
    | true =>
      have e1 : (c :: cs).filter (fun x => x.isScore)
          = c :: cs.filter (fun x => x.isScore) := by
        simp [List.filter_cons, hs]
      cases hd : c.isDynamic with
      | true =>
        have hlen : c.axLen ≤ 1 := hdyn c (List.mem_cons_self c cs) hd
        have e2 : (c :: cs).filter (fun x => x.isScore && ! x.isDynamic)
            = cs.filter (fun x => x.isScore && ! x.isDynamic) := by
          simp [List.filter_cons, hs, hd]
        have e3 : (c :: cs).filter (fun x => x.isScore && x.isDynamic)
            = c :: cs.filter (fun x => x.isScore && x.isDynamic) := by
          simp [List.filter_cons, hs, hd]
        rw [e1, e2, e3, List.map_cons, List.sum_cons, List.length_cons,
          if_pos hlen, ihr]
        ring
      | false =>
        have hlen : 2 ≤ c.axLen := hfix c (List.mem_cons_self c cs) hd
        have hnle : ¬ c.axLen ≤ 1 := by omega
        have e2 : (c :: cs).filter (fun x => x.isScore && ! x.isDynamic)
            = c :: cs.filter (fun x => x.isScore && ! x.isDynamic) := by
          simp [List.filter_cons, hs, hd]
        have e3 : (c :: cs).filter (fun x => x.isScore && x.isDynamic)
            = cs.filter (fun x => x.isScore && x.isDynamic) := by
          simp [List.filter_cons, hs, hd]
        rw [e1, e2, e3, List.map_cons, List.sum_cons, List.map_cons,
          List.sum_cons, if_neg hnle, ihr]
        ring

/-- C7 (amended): for every histogram whose dynamic axes are all unfilled (at
most one bin value) and whose fixed axes have at least two bin values, the
byte estimate with dynamic sizes 3 and 100 equals 3 to the number of dynamic
coordinate axes, times the product of the fixed coordinate-axis lengths,
times the sum of the filled score-axis lengths plus 100 times the number of
dynamic score axes, times the dtype item size. -/
theorem C7_size_estimate_formula (coords : List Coord) (itemsize : ℕ)
    (hdyn : ∀ c ∈ coords, c.isDynamic = true → c.axLen ≤ 1)
    (hfix : ∀ c ∈ coords, c.isDynamic = false → 2 ≤ c.axLen) :
    get_size_estimate coords itemsize 3 100
      = 3 ^ ((coords.filter (fun c => ! c.isScore && c.isDynamic)).length)
        * ((coords.filter (fun c => ! c.isScore && ! c.isDynamic)).map Coord.axLen).prod
        * (((coords.filter (fun c => c.isScore && ! c.isDynamic)).map Coord.axLen).sum
            + 100 * ((coords.filter (fun c => c.isScore && c.isDynamic)).length))
        * itemsize := by
  unfold get_size_estimate
  rw [foldl_mul_map, foldl_add_map, one_mul, zero_add,
    commonSizeLemma coords hdyn hfix, scoreSizeLemma coords hdyn hfix]

/-- C7 witness: the amended formula evaluated on the default histogram
configuration. -/
theorem C7_size_estimate_witness :
    get_size_estimate defaultCoords 4 3 100
      = 3 ^ ((defaultCoords.filter (fun c => ! c.isScore && c.isDynamic)).length)
        * ((defaultCoords.filter (fun c => ! c.isScore && ! c.isDynamic)).map Coord.axLen).prod
        * (((defaultCoords.filter (fun c => c.isScore && ! c.isDynamic)).map Coord.axLen).sum
            + 100 * ((defaultCoords.filter (fun c => c.isScore && c.isDynamic)).length))
        * 4 :=
  C7_size_estimate_formula defaultCoords 4
    (by rw [defaultCoords_eval]; decide)
    (by rw [defaultCoords_eval]; decide)

end Histogram

/-! ## Photometry reduction (src/observatory.py, VirtualDemoObs.reduce_photometry)

A photometry dataframe is a list of rows; each row keeps its pandas index
label idx, so that the effect (or absence) of reset_index can be stated.
The per-filter partitions that reduce_photometry builds are modelled as the
lists of rows handed to each new Lightcurve. -/

/-- One row of a raw photometry dataframe: pandas index label, time, magnitude,
filter name and quality flag. -/
structure PhotRow where
  idx : ℕ
  mjd : ℚ
  mag : ℚ
  filt : String
  flag : ℤ
  deriving DecidableEq

/-- Insertion into a sorted list of rationals. -/
def insertRatSorted (x : ℚ) : List ℚ → List ℚ
  | [] => [x]
  | y :: ys => if x ≤ y then x :: y :: ys else y :: insertRatSorted x ys

/-- Insertion sort on rationals. -/
def sortRat : List ℚ → List ℚ
  | [] => []
  | x :: xs => insertRatSorted x (sortRat xs)

/-- np.nanmedian over the exact-rational model (the model carries no NaN):
middle element of the sorted list, or the mean of the two middle elements. -/
def nanmedian (xs : List ℚ) : ℚ :=
  let s := sortRat xs
  let n := s.length
  if n = 0 then 0
  else if n % 2 = 1 then s.getD (n / 2) 0
  else (s.getD (n / 2 - 1) 0 + s.getD (n / 2) 0) / 2

/-- First-occurrence deduplication, modelling pandas Series.unique on the
filter column. -/
def dedupFirst : List String → List String
  | [] => []
  | x :: xs => x :: (dedupFirst xs).filter (fun y => y ≠ x)

/-- The unique filter values of the dataframe, in first-occurrence order. -/
def uniqueFilters (rows : List PhotRow) : List String :=
  dedupFirst (rows.map PhotRow.filt)

/-- One per-filter partition: the rows whose filter column equals f, in the
original dataframe order and with the original index labels (the code calls
df_new.reset_index(drop=True) but discards the result, and performs no sort);
when dropBad is set and a flag column exists, rows with non-zero flag are
removed. -/
def filterPartition (rows : List PhotRow) (f : String) (dropBad hasFlagCol : Bool) :
    List PhotRow :=
  let sel := rows.filter (fun row => row.filt == f)
  if dropBad && hasFlagCol then sel.filter (fun row => row.flag == 0) else sel

/-- The magnitude-range guard of reduce_photometry: true exactly when the
Python condition `source and source.mag is not None and mag_range` holds (a
zero or None mag_range is falsy) and the median magnitude fails the strict
test mag_mn < median < mag_mx. -/
def magCheckFails (rows : List PhotRow) (sourceMag magRange : Option ℚ) : Bool :=
  match sourceMag, magRange with
  | Option.some m, Option.some r =>
      if r = 0 then false
      else ! (decide (m - r < nanmedian (rows.map PhotRow.mag))
          && decide (nanmedian (rows.map PhotRow.mag) < m + r))
  | _, _ => false

/-- VirtualDemoObs.reduce_photometry on the dataframe model: drop the whole
dataset when a source magnitude and a truthy (non-zero, non-None) mag_range
are given and the median magnitude is not strictly inside
(sourceMag - magRange, sourceMag + magRange); otherwise partition the rows by
filter value.  Each returned partition is the dataframe handed to one new
Lightcurve. -/
def reduce_photometry (rows : List PhotRow) (sourceMag : Option ℚ)
    (magRange : Option ℚ) (dropBad hasFlagCol : Bool) : List (List PhotRow) :=
  if magCheckFails rows sourceMag magRange then []
  else (uniqueFilters rows).map (fun f => filterPartition rows f dropBad hasFlagCol)

/-- C6 counterexample: a one-row dataset whose median magnitude is exactly
sourceMag + magRange (11 = 10 + 1) is inside the closed interval the claim
keeps, yet reduce_photometry drops it (returns no lightcurves), because the
code tests mag_mn < median < mag_mx with strict inequalities. -/
theorem C6_counterexample_boundary_dropped :
    reduce_photometry [⟨0, 1, 11, "R", 0⟩] (Option.some 10) (Option.some 1) false true = []
    ∧ nanmedian ([(⟨0, 1, 11, "R", 0⟩ : PhotRow)].map PhotRow.mag) = 10 + 1
    ∧ ¬ (nanmedian ([(⟨0, 1, 11, "R", 0⟩ : PhotRow)].map PhotRow.mag) < 10 - 1
          ∨ 10 + 1 < nanmedian ([(⟨0, 1, 11, "R", 0⟩ : PhotRow)].map PhotRow.mag)) := by
  have hmed : nanmedian ([(⟨0, 1, 11, "R", 0⟩ : PhotRow)].map PhotRow.mag) = 11 := by
    norm_num [nanmedian, sortRat, insertRatSorted]
  refine ⟨?_, by rw [hmed]; norm_num, by rw [hmed]; push_neg; constructor <;> norm_num⟩
  have hfail : magCheckFails [⟨0, 1, 11, "R", 0⟩] (Option.some 10) (Option.some 1) = true := by
    simp only [magCheckFails, hmed]
    norm_num
  unfold reduce_photometry
  rw [hfail]
  rfl

theorem uniqueFilters_ne_nil (rows : List PhotRow) (h : rows ≠ []) :
    uniqueFilters rows ≠ [] := by
  cases rows with
  | nil => exact absurd rfl h
  | cons r rest => simp [uniqueFilters, dedupFirst]

/-- C6 (amended): with a source of known magnitude and a truthy (non-zero)
mag_range, reduce_photometry drops the raw dataset exactly when its median
magnitude falls outside the OPEN interval
(source.mag - mag_range, source.mag + mag_range); a dataset whose median
equals either endpoint is dropped, and a kept dataset proceeds to the
per-filter partitioning. -/
theorem C6_mag_range_open_interval (rows : List PhotRow) (m r : ℚ)
    (dropBad hasFlagCol : Bool) (hr : r ≠ 0) (hrows : rows ≠ []) :
    (reduce_photometry rows (Option.some m) (Option.some r) dropBad hasFlagCol = []
      ↔ (nanmedian (rows.map PhotRow.mag) ≤ m - r
          ∨ m + r ≤ nanmedian (rows.map PhotRow.mag)))
    ∧ (m - r < nanmedian (rows.map PhotRow.mag)
        ∧ nanmedian (rows.map PhotRow.mag) < m + r →
        reduce_photometry rows (Option.some m) (Option.some r) dropBad hasFlagCol
          = (uniqueFilters rows).map (fun f => filterPartition rows f dropBad hasFlagCol)) := by
  have hmap : (uniqueFilters rows).map (fun f => filterPartition rows f dropBad hasFlagCol)
      ≠ [] := by
    have hne := uniqueFilters_ne_nil rows hrows
    cases huf : uniqueFilters rows with
    | nil => exact absurd huf hne
    | cons a l => simp
  by_cases hin : m - r < nanmedian (rows.map PhotRow.mag)
      ∧ nanmedian (rows.map PhotRow.mag) < m + r
  · have hb : magCheckFails rows (Option.some m) (Option.some r) = false := by
      simp only [magCheckFails, if_neg hr]
      simp [hin.1, hin.2]
    have hred : reduce_photometry rows (Option.some m) (Option.some r) dropBad hasFlagCol
        = (uniqueFilters rows).map (fun f => filterPartition rows f dropBad hasFlagCol) := by
      unfold reduce_photometry
      rw [hb]
      simp
    refine ⟨?_, fun _ => hred⟩
    rw [hred]
    constructor
    · intro hmap2
      exact absurd hmap2 hmap
    · intro hout
      rcases hout with h1 | h2
      · exact absurd hin.1 (not_lt.mpr h1)
      · exact absurd hin.2 (not_lt.mpr h2)
  · have hout : nanmedian (rows.map PhotRow.mag) ≤ m - r
        ∨ m + r ≤ nanmedian (rows.map PhotRow.mag) := by
      rcases not_and_or.mp hin with h1 | h2
      · exact Or.inl (not_lt.mp h1)
      · exact Or.inr (not_lt.mp h2)
    have hb : magCheckFails rows (Option.some m) (Option.some r) = true := by
      simp only [magCheckFails, if_neg hr]
      rcases not_and_or.mp hin with h1 | h2
      · simp [h1]
      · simp [h2]
    have hred : reduce_photometry rows (Option.some m) (Option.some r) dropBad hasFlagCol
        = [] := by
      unfold reduce_photometry
      rw [hb]
      simp
    exact ⟨by rw [hred]; exact ⟨fun _ => hout, fun _ => rfl⟩, fun hin2 => absurd hin2 hin⟩

/-- C6 witness: a one-row dataset with median magnitude equal to the source
magnitude (strictly inside the open interval) is kept and partitioned. -/
theorem C6_mag_range_witness :
    (reduce_photometry [⟨0, 1, 10, "R", 0⟩] (Option.some 10) (Option.some 1) false true = []
      ↔ (nanmedian ([(⟨0, 1, 10, "R", 0⟩ : PhotRow)].map PhotRow.mag) ≤ 10 - 1
          ∨ 10 + 1 ≤ nanmedian ([(⟨0, 1, 10, "R", 0⟩ : PhotRow)].map PhotRow.mag)))
    ∧ ((10 : ℚ) - 1 < nanmedian ([(⟨0, 1, 10, "R", 0⟩ : PhotRow)].map PhotRow.mag)
        ∧ nanmedian ([(⟨0, 1, 10, "R", 0⟩ : PhotRow)].map PhotRow.mag) < 10 + 1 →
        reduce_photometry [⟨0, 1, 10, "R", 0⟩] (Option.some 10) (Option.some 1) false true
          = (uniqueFilters [⟨0, 1, 10, "R", 0⟩]).map
              (fun f => filterPartition [⟨0, 1, 10, "R", 0⟩] f false true)) :=
  C6_mag_range_open_interval [⟨0, 1, 10, "R", 0⟩] 10 1 false true
    (by norm_num) (by simp)

/-- C5: on a dataframe whose filter R rows are at index labels 0 and 2 with
times 5 then 3, the R partition built by reduce_photometry keeps the original
row order (times 5, 3: not sorted ascending) and the original index labels
(0, 2: not reset to start from zero).  The code discards the result of
df_new.reset_index(drop=True) and never sorts by time, contradicting its own
docstring (each dataset will be sorted by time). -/
theorem C5_partition_not_sorted_not_reindexed :
    reduce_photometry
        [⟨0, 5, 10, "R", 0⟩, ⟨1, 4, 10, "G", 0⟩, ⟨2, 3, 10, "R", 0⟩]
        Option.none Option.none false true
      = [[⟨0, 5, 10, "R", 0⟩, ⟨2, 3, 10, "R", 0⟩], [⟨1, 4, 10, "G", 0⟩]]
    ∧ ((reduce_photometry
        [⟨0, 5, 10, "R", 0⟩, ⟨1, 4, 10, "G", 0⟩, ⟨2, 3, 10, "R", 0⟩]
        Option.none Option.none false true).headD []).map PhotRow.mjd = [5, 3]
    ∧ ((reduce_photometry
        [⟨0, 5, 10, "R", 0⟩, ⟨1, 4, 10, "G", 0⟩, ⟨2, 3, 10, "R", 0⟩]
        Option.none Option.none false true).headD []).map PhotRow.idx = [0, 2] := by
  have h : reduce_photometry
      [⟨0, 5, 10, "R", 0⟩, ⟨1, 4, 10, "G", 0⟩, ⟨2, 3, 10, "R", 0⟩]
      Option.none Option.none false true
      = [[⟨0, 5, 10, "R", 0⟩, ⟨2, 3, 10, "R", 0⟩], [⟨1, 4, 10, "G", 0⟩]] := by
    decide
  refine ⟨h, ?_, ?_⟩ <;> rw [h] <;> rfl

/-! ## Fetch orchestrator (src/observatory.py, VirtualObservatory.check_and_fetch_source)

The orchestration logic is embedded from the source; the out-of-scope
collaborators it drives (the Source/RawData persistence entities of
src/source.py and src/dataset.py, the database session of src/database.py
and the keyed tabular file store, none of which are under src/) are
modelled from the spec, sections 3 and 6: the database is a list of source
records each owning its raw-data records, the file store is the list of
(filename, key) pairs present on disk, a session works on a draft of the
loaded source which reaches the database only at commit. -/

/-- Modelled from the spec: a RawData record, a reference to externally
stored tabular content with its observatory, data type, source name,
backing file and container key, and the download_pars side channel of its
altdata mapping (none when altdata has no download_pars entry). -/
structure RawData where
  observatory : String
  dataType : String
  sourceName : String
  filename : String
  filekey : String
  downloadPars : Option (List (String × Int))
  deriving DecidableEq

/-- Modelled from the spec: a persisted Source entity, keyed by name, with
its catalog right ascension and its collection of raw-data records. -/
structure SourceRec where
  name : String
  ra : Option ℚ
  raw : List RawData
  deriving DecidableEq

/-- Modelled from the spec: the committed database state. -/
structure DB where
  sources : List SourceRec
  deriving DecidableEq

/-- Modelled from the spec: the on-disk file store, as the list of
(filename, container key) pairs currently present. -/
abbrev FS := List (String × String)

/-- A catalog row: the identity name and the right ascension. -/
structure CatRow where
  name : String
  ra : Option ℚ
  deriving DecidableEq

/-- The parameters of check_and_fetch_source that the claims touch. -/
structure FetchPars where
  obsName : String
  dataTypes : List String
  checkDownloadPars : Bool
  downloadParsList : List String
  saveRaMinutes : Bool
  saveRaSeconds : Bool
  parsVals : String → Int

/-- Modelled from the spec: RawData.check_file_exists, an existence check on
the backing file that needs no data load. -/
def fileExists (fs : FS) (filename : String) : Bool :=
  fs.any (fun e => e.fst == filename)

/-- Modelled from the spec: RawData.load from the keyed tabular file store;
when the file does not hold the record key, the store raises a KeyError
whose message contains No object named. -/
def loadFromStore (fs : FS) (rd : RawData) : Except PyExc Unit :=
  if fs.any (fun e => e.fst == rd.filename && e.snd == rd.filekey) then Except.ok ()
  else Except.error (PyExc.keyError ("No object named " ++ rd.filekey
    ++ " in the file " ++ rd.filename))

/-- Modelled from the spec: Source.get_raw_data for this observatory and
data type. -/
def SourceRec.getRawData (s : SourceRec) (obs dt : String) : Option RawData :=
  s.raw.find? (fun r => r.observatory == obs && r.dataType == dt)

/-- Modelled from the spec: Source.remove_raw_data followed by
session.flush, removing the record from the draft source. -/
def SourceRec.removeRawData (s : SourceRec) (obs dt : String) : SourceRec :=
  { s with raw := s.raw.filter (fun r => ! (r.observatory == obs && r.dataType == dt)) }

/-- Lookup of one download parameter in an altdata download_pars mapping. -/
def lookupStr (l : List (String × Int)) (k : String) : Option Int :=
  (l.find? (fun e => e.fst == k)).map Prod.snd

/-- The loop over pars.download_pars_list of check_and_fetch_source: the
recorded parameters pass when every listed key is present in the recorded
mapping with the current value. -/
def downloadParsMatch (parsList : List String) (recorded current : List (String × Int)) : Bool :=
  parsList.all (fun key =>
    match lookupStr recorded key with
    | Option.none => false
    | Option.some v => lookupStr current key == Option.some v)

/-- The RawData instance check_and_fetch_source builds around a fetched
payload: tagged with this observatory, the catalog name, and the current
download parameters; the backing file name and key the store will use are
taken from the fetch collaborator model. -/
def mkFetchedRawData (obsName srcName dt : String) (fetchFile : String × String)
    (dp : List (String × Int)) : RawData :=
  ⟨obsName, dt, srcName, fetchFile.fst, fetchFile.snd, Option.some dp⟩

/-- The guard at the end of the per-data-type block: append the record to the
raw collection of the source only when the collection holds no record of this
observatory for this data type. -/
def appendGuard (src : SourceRec) (obsName dt : String) (rd : RawData) : SourceRec :=
  if src.raw.any (fun r => r.observatory == obsName && r.dataType == dt) then src
  else { src with raw := src.raw ++ [rd] }

/-- The tail of the per-data-type block: fetch from the observatory when no
valid record remains, then append under the guard. -/
def finishDataType (obsName : String) (src : SourceRec) (dt : String)
    (rdOpt : Option RawData) (fetchFile : String × String) (dp : List (String × Int)) :
    Except PyExc (SourceRec × Option RawData) :=
  match rdOpt with
  | Option.some rd => Except.ok (appendGuard src obsName dt rd, Option.none)
  | Option.none =>
      let rd := mkFetchedRawData obsName src.name dt fetchFile dp
      Except.ok (appendGuard src obsName dt rd, Option.some rd)

/-- The KeyError handler of the load step: a KeyError whose message contains
No object named marks a stale record, which is discarded (remove plus flush)
so the code falls through to fetch; any other exception is re-raised. -/
def handleLoadResult (obsName dt : String) (src : SourceRec) (rd : RawData)
    (loadRes : Except PyExc Unit) : Except PyExc (SourceRec × Option RawData) :=
  match loadRes with
  | Except.ok _ => Except.ok (src, Option.some rd)
  | Except.error e =>
      match e with
      | PyExc.keyError msg =>
          if strHasSub msg "No object named" then
            Except.ok (src.removeRawData obsName dt, Option.none)
          else Except.error (PyExc.keyError msg)
      | other => Except.error other

/-- The download-parameters staleness check (guarded by
pars.check_download_pars): a record without download_pars in altdata, or
with a listed key missing or changed, is discarded. -/
def checkDownloadParsStep (checkDP : Bool) (parsList : List String)
    (obsName dt : String) (src : SourceRec) (rdOpt : Option RawData)
    (dp : List (String × Int)) : SourceRec × Option RawData :=
  match rdOpt with
  | Option.none => (src, Option.none)
  | Option.some rd =>
      if checkDP then
        match rd.downloadPars with
        | Option.none => (src.removeRawData obsName dt, Option.none)
        | Option.some recorded =>
            if downloadParsMatch parsList recorded dp then (src, Option.some rd)
            else (src.removeRawData obsName dt, Option.none)
      else (src, Option.some rd)

/-- The per-data-type block of check_and_fetch_source (observatory.py lines
573 to 673): look up the record, fail fast when its backing file is missing,
load it (with the stale-key handler), re-check the download parameters, fetch
when nothing valid remains, and append under the collection guard.  The load
outcome is an explicit argument; processDataTypeAuto below derives it from
the file store. -/
def processDataType (obsName : String) (checkDP : Bool) (parsList : List String)
    (fs : FS) (src : SourceRec) (dt : String) (loadRes : Except PyExc Unit)
    (fetchFile : String × String) (dp : List (String × Int)) :
    Except PyExc (SourceRec × Option RawData) :=
  match src.getRawData obsName dt with
  | Option.none => finishDataType obsName src dt Option.none fetchFile dp
  | Option.some rd =>
      if ! fileExists fs rd.filename then
        Except.error (PyExc.runtimeError (dt ++ " object for source " ++ src.name
          ++ (" exists in DB but file does not exist." : String)))
      else
        match handleLoadResult obsName dt src rd loadRes with
        | Except.error e => Except.error e
        | Except.ok (src1, rdOpt) =>
            let stepped := checkDownloadParsStep checkDP parsList obsName dt src1 rdOpt dp
            finishDataType obsName stepped.fst dt stepped.snd fetchFile dp

/-- The per-data-type block with the load outcome taken from the modelled
file store. -/
def processDataTypeAuto (obsName : String) (checkDP : Bool) (parsList : List String)
    (fs : FS) (src : SourceRec) (dt : String) (fetchFile : String × String)
    (dp : List (String × Int)) : Except PyExc (SourceRec × Option RawData) :=
  processDataType obsName checkDP parsList fs src dt
    (match src.getRawData obsName dt with
      | Option.some rd => loadFromStore fs rd
      | Option.none => Except.ok ())
    fetchFile dp

/-- The loop over pars.data_types, accumulating the new_data list. -/
def runDataTypes (obsName : String) (checkDP : Bool) (parsList : List String)
    (fs : FS) (fetchFiles : String → String × String) (dp : List (String × Int)) :
    SourceRec → List String → List RawData → Except PyExc (SourceRec × List RawData)
  | src, [], acc => Except.ok (src, acc)
  | src, dt :: rest, acc =>
      match processDataTypeAuto obsName checkDP parsList fs src dt (fetchFiles dt) dp with
      | Except.error e => Except.error e
      | Except.ok (src1, newOpt) =>
          runDataTypes obsName checkDP parsList fs fetchFiles dp src1 rest
            (acc ++ newOpt.toList)

/-- The sexagesimal right-ascension components computed at the start of the
save branch (observatory.py lines 676 to 691): with save_ra_minutes false the
minutes component is None, and save_ra_seconds then divides None by 60, a
Python TypeError. -/
def computeRaComponents (saveRaMinutes saveRaSeconds : Bool) (ra : Option ℚ) :
    Except PyExc (Option ℚ × Option ℚ × Option ℚ) :=
  match ra with
  | Option.none => Except.ok (Option.none, Option.none, Option.none)
  | Option.some r =>
      let raDeg : ℚ := ⌊r⌋
      let raMinute : Option ℚ :=
        if saveRaMinutes then Option.some (⌊(r - raDeg) * 60⌋ : ℤ) else Option.none
      if saveRaSeconds then
        match raMinute with
        | Option.some mn =>
            Except.ok (Option.some raDeg, Option.some mn,
              Option.some (⌊(r - raDeg - mn / 60) * 3600⌋ : ℤ))
        | Option.none =>
            Except.error (PyExc.typeError
              "unsupported operand type for /: NoneType and int")
      else Except.ok (Option.some raDeg, raMinute, Option.none)

/-- Modelled from the spec: data.save writes the dataset table under its key
into its backing file; presence on disk is the (filename, key) pair. -/
def writeFile (fs : FS) (rd : RawData) : FS :=
  (rd.filename, rd.filekey) :: fs

/-- Modelled from the spec: data.delete_data_from_disk removes the backing
file of the dataset (every key it holds). -/
def deleteDataFromDisk (fs : FS) (rds : List RawData) : FS :=
  fs.filter (fun e => ! rds.any (fun rd => rd.filename == e.fst))

/-- The save loop over new_data; a fault at position i models an exception
raised by the i-th data.save call (the write does not land). -/
def runSaves (saveFault : ℕ → Option PyExc) : FS → ℕ → List RawData → FS × Option PyExc
  | fs, _, [] => (fs, Option.none)
  | fs, i, rd :: rest =>
      match saveFault i with
      | Option.some e => (fs, Option.some e)
      | Option.none => runSaves saveFault (writeFile fs rd) (i + 1) rest

/-- The earliest save fault among positions i, i+1, ..., i+n-1. -/
def firstSaveFault (saveFault : ℕ → Option PyExc) : ℕ → ℕ → Option PyExc
  | _, 0 => Option.none
  | i, n + 1 =>
      match saveFault i with
      | Option.some e => Option.some e
      | Option.none => firstSaveFault saveFault (i + 1) n

/-- The first exception of the save phase: the earliest save fault, else the
commit fault. -/
def firstFault (saveFault : ℕ → Option PyExc) (commitFault : Option PyExc)
    (i n : ℕ) : Option PyExc :=
  match firstSaveFault saveFault i n with
  | Option.some e => Option.some e
  | Option.none => commitFault

/-- Modelled from the spec: session.commit of the source and its raw rows,
replacing any committed source of the same name. -/
def commitSource (db : DB) (src : SourceRec) : DB :=
  ⟨db.sources.filter (fun s => ! (s.name == src.name)) ++ [src]⟩

/-- Outcome of the save phase: the committed database, the file store, and
the exception re-raised to the caller, if any. -/
structure SaveOutcome where
  db : DB
  fs : FS
  exc : Option PyExc
  deriving DecidableEq

/-- The try block of the save branch: save each new dataset to disk and
commit the transaction; on any exception, roll back (the committed database
is left as it was), delete the files of the new datasets of this call from
disk, and re-raise. -/
def savePhaseCore (db : DB) (fs : FS) (src : SourceRec) (newData : List RawData)
    (saveFault : ℕ → Option PyExc) (commitFault : Option PyExc) : SaveOutcome :=
  match runSaves saveFault fs 0 newData with
  | (fsw, Option.some e) => ⟨db, deleteDataFromDisk fsw newData, Option.some e⟩
  | (fsw, Option.none) =>
      match commitFault with
      | Option.some e => ⟨db, deleteDataFromDisk fsw newData, Option.some e⟩
      | Option.none => ⟨commitSource db src, fsw, Option.none⟩

/-- The save branch of check_and_fetch_source (observatory.py lines 676 to
718): compute the right-ascension components, then run the try block. -/
def savePhase (saveRaMinutes saveRaSeconds : Bool) (db : DB) (fs : FS)
    (src : SourceRec) (newData : List RawData)
    (saveFault : ℕ → Option PyExc) (commitFault : Option PyExc) : SaveOutcome :=
  match computeRaComponents saveRaMinutes saveRaSeconds src.ra with
  | Except.error e => ⟨db, fs, Option.some e⟩
  | Except.ok _ => savePhaseCore db fs src newData saveFault commitFault

/-- Outcome of one check_and_fetch_source call: final database and file
store, the returned source or raised exception, and the new_data list the
call created. -/
structure FetchOutcome where
  db : DB
  fs : FS
  result : Except PyExc SourceRec
  created : List RawData

/-- The in-memory Source built from a catalog row when the database holds no
source of that name. -/
def newSourceFromCatRow (row : CatRow) : SourceRec := ⟨row.name, row.ra, []⟩

/-- The continuation of check_and_fetch_source after the per-data-type loop:
on a loop exception the call re-raises with nothing changed; otherwise, when
save is set, the save phase runs and its exception (if any) is re-raised. -/
def afterLoop (pars : FetchPars) (db : DB) (fs : FS) (save : Bool)
    (saveFault : ℕ → Option PyExc) (commitFault : Option PyExc) :
    Except PyExc (SourceRec × List RawData) → FetchOutcome
  | Except.error e => ⟨db, fs, Except.error e, []⟩
  | Except.ok (src1, newData) =>
      if save then
        match savePhase pars.saveRaMinutes pars.saveRaSeconds db fs src1 newData
            saveFault commitFault with
        | ⟨db1, fs1, Option.some e⟩ => ⟨db1, fs1, Except.error e, newData⟩
        | ⟨db1, fs1, Option.none⟩ => ⟨db1, fs1, Except.ok src1, newData⟩
      else ⟨db, fs, Except.ok src1, newData⟩

/-- VirtualObservatory.check_and_fetch_source (observatory.py lines 524 to
720): resolve the source by name, run the per-data-type load-or-fetch loop,
and, when save is set, run the save phase.  fetchFiles models the backing
file and key that fetch_data_from_observatory plus data.save assign per data
type; saveFault and commitFault model exceptions of the disk and database
collaborators. -/
def check_and_fetch_source (pars : FetchPars) (db : DB) (fs : FS) (row : CatRow)
    (save : Bool) (fetchFiles : String → String × String)
    (saveFault : ℕ → Option PyExc) (commitFault : Option PyExc) : FetchOutcome :=
  afterLoop pars db fs save saveFault commitFault
    (runDataTypes pars.obsName pars.checkDownloadPars pars.downloadParsList fs
      fetchFiles (pars.downloadParsList.map (fun k => (k, pars.parsVals k)))
      ((db.sources.find? (fun s => s.name == row.name)).getD (newSourceFromCatRow row))
      pars.dataTypes [])

theorem runSaves_snd_eq (saveFault : ℕ → Option PyExc) :
    ∀ (data : List RawData) (i : ℕ) (fs : FS),
      (runSaves saveFault fs i data).snd = firstSaveFault saveFault i data.length := by
  intro data
  induction data with
  | nil => intro i fs; rfl
  | cons rd rest ih =>
    intro i fs
    cases hsf : saveFault i with
    | some e => simp [runSaves, firstSaveFault, hsf]
    | none => simp [runSaves, firstSaveFault, hsf, ih (i + 1) (writeFile fs rd)]

theorem deleteDataFromDisk_writeFile (fs : FS) (rd : RawData) (all : List RawData)
    (h : rd ∈ all) :
    deleteDataFromDisk (writeFile fs rd) all = deleteDataFromDisk fs all := by
  unfold deleteDataFromDisk writeFile
  have hany : all.any (fun r => r.filename == (rd.filename, rd.filekey).fst) = true := by
    rw [List.any_eq_true]
    exact ⟨rd, h, by simp⟩
  rw [List.filter_cons, hany]
  simp

theorem runSaves_fst_delete (saveFault : ℕ → Option PyExc) (all : List RawData) :
    ∀ (data : List RawData), (∀ rd ∈ data, rd ∈ all) →
    ∀ (i : ℕ) (fs : FS),
      deleteDataFromDisk (runSaves saveFault fs i data).fst all
        = deleteDataFromDisk fs all := by
  intro data
  induction data with
  | nil => intro _ i fs; rfl
  | cons rd rest ih =>
    intro hsub i fs
    cases hsf : saveFault i with
    | some e => simp [runSaves, hsf]
    | none =>
      have h1 := ih (fun x hx => hsub x (List.mem_cons_of_mem rd hx)) (i + 1)
        (writeFile fs rd)
      have h2 := deleteDataFromDisk_writeFile fs rd all
        (hsub rd (List.mem_cons_self rd rest))
      simp only [runSaves, hsf]
      rw [h1, h2]

theorem deleteDataFromDisk_disjoint (fs : FS) (all : List RawData)
    (h : ∀ e ∈ fs, ∀ rd ∈ all, e.fst ≠ rd.filename) :
    deleteDataFromDisk fs all = fs := by
  unfold deleteDataFromDisk
  rw [List.filter_eq_self]
  intro e he
  have hany : all.any (fun rd => rd.filename == e.fst) = false := by
    rw [List.any_eq_false]
    intro rd hrd
    intro hh
    rw [beq_iff_eq] at hh
    exact (h e he rd hrd) hh.symm
  simp [hany]

/-- C1: if any exception is raised during the save phase of
check_and_fetch_source (a save fault or a commit fault), the database
transaction is rolled back (the committed database is unchanged), the
backing file of every dataset newly created during this call is deleted from
disk, previously existing files are untouched (the final file store equals
the initial one), and the same first exception is re-raised. -/
theorem C1_save_exception_rollback_cleanup (mins secs : Bool) (db : DB) (fs : FS)
    (src : SourceRec) (newData : List RawData)
    (saveFault : ℕ → Option PyExc) (commitFault : Option PyExc) (e : PyExc)
    (hra : ∃ v, computeRaComponents mins secs src.ra = Except.ok v)
    (hdisj : ∀ entry ∈ fs, ∀ rd ∈ newData, entry.fst ≠ rd.filename)
    (hfault : firstFault saveFault commitFault 0 newData.length = Option.some e) :
    savePhase mins secs db fs src newData saveFault commitFault
      = ⟨db, fs, Option.some e⟩ := by
  obtain ⟨v, hv⟩ := hra
  have hclean : deleteDataFromDisk fs newData = fs :=
    deleteDataFromDisk_disjoint fs newData hdisj
  have hcore : savePhaseCore db fs src newData saveFault commitFault
      = ⟨db, fs, Option.some e⟩ := by
    have hsnd := runSaves_snd_eq saveFault newData 0 fs
    have hfst := runSaves_fst_delete saveFault newData newData (fun rd h => h) 0 fs
    unfold savePhaseCore
    rcases hrs : runSaves saveFault fs 0 newData with ⟨fsw, res⟩
    rw [hrs] at hsnd hfst
    simp only at hsnd hfst
    have hdelw : deleteDataFromDisk fsw newData = fs := hfst.trans hclean
    unfold firstFault at hfault
    cases hsf : firstSaveFault saveFault 0 newData.length with
    | some e0 =>
      rw [hsf] at hsnd hfault
      have he0 : e0 = e := Option.some.inj hfault
      subst hsnd
      show (⟨db, deleteDataFromDisk fsw newData, Option.some e0⟩ : SaveOutcome)
        = ⟨db, fs, Option.some e⟩
      rw [hdelw, he0]
    | none =>
      rw [hsf] at hsnd hfault
      subst hsnd
      have hcf : commitFault = Option.some e := hfault
      rw [hcf]
      show (⟨db, deleteDataFromDisk fsw newData, Option.some e⟩ : SaveOutcome)
        = ⟨db, fs, Option.some e⟩
      rw [hdelw]
  unfold savePhase
  rw [hv]
  exact hcore

/-- C1 witness: a save phase over one new dataset whose first save raises;
the database and the file store come back unchanged and the exception is
re-raised. -/
theorem C1_save_exception_witness :
    savePhase false false ⟨[]⟩ [("old.h5", "k")] ⟨"s1", Option.none, []⟩
        [⟨"DEMO", "photometry", "s1", "new.h5", "k1", Option.none⟩]
        (fun _ => Option.some (PyExc.otherError "disk full")) Option.none
      = ⟨⟨[]⟩, [("old.h5", "k")], Option.some (PyExc.otherError "disk full")⟩ :=
  C1_save_exception_rollback_cleanup false false ⟨[]⟩ [("old.h5", "k")]
    ⟨"s1", Option.none, []⟩ [⟨"DEMO", "photometry", "s1", "new.h5", "k1", Option.none⟩]
    (fun _ => Option.some (PyExc.otherError "disk full")) Option.none
    (PyExc.otherError "disk full")
    ⟨(Option.none, Option.none, Option.none), rfl⟩
    (by decide)
    rfl

theorem charsHaveSub_of_isPrefix (pat l : List Char) (h : pat.isPrefixOf l = true) :
    charsHaveSub pat l = true := by
  cases l with
  | nil =>
    cases pat with
    | nil => rfl
    | cons c cs => simp [List.isPrefixOf] at h
  | cons c cs =>
    unfold charsHaveSub
    rw [Bool.or_eq_true]
    exact Or.inl h

theorem strHasSub_fileMissing (dt name : String) :
    strHasSub (dt ++ " object for source " ++ name
        ++ " exists in DB but file does not exist.")
      "exists in DB but file does not exist" = true := by
  unfold strHasSub
  rw [String.data_append]
  apply charsHaveSub_append_left
  decide

/-- C3: when a RawData record for (source, this observatory, data type)
exists in the database but its backing file is missing from disk,
check_and_fetch_source raises RuntimeError with nothing changed: the
database keeps the record, the file store is untouched, and no fetch
happens (no new dataset is created). -/
theorem C3_missing_file_fail_fast (pars : FetchPars) (db : DB) (fs : FS) (row : CatRow)
    (save : Bool) (fetchFiles : String → String × String)
    (saveFault : ℕ → Option PyExc) (commitFault : Option PyExc)
    (src : SourceRec) (rd : RawData) (dt : String) (rest : List String)
    (hfind : db.sources.find? (fun s => s.name == row.name) = Option.some src)
    (hdts : pars.dataTypes = dt :: rest)
    (hrd : src.getRawData pars.obsName dt = Option.some rd)
    (hfile : fileExists fs rd.filename = false) :
    check_and_fetch_source pars db fs row save fetchFiles saveFault commitFault
      = ⟨db, fs, Except.error (PyExc.runtimeError (dt ++ " object for source "
          ++ src.name ++ " exists in DB but file does not exist.")), []⟩
    ∧ strHasSub (dt ++ " object for source " ++ src.name
        ++ " exists in DB but file does not exist.")
      "exists in DB but file does not exist" = true := by
  refine ⟨?_, strHasSub_fileMissing dt src.name⟩
  have hproc : processDataTypeAuto pars.obsName pars.checkDownloadPars
      pars.downloadParsList fs src dt (fetchFiles dt)
      (pars.downloadParsList.map (fun k => (k, pars.parsVals k)))
      = Except.error (PyExc.runtimeError (dt ++ " object for source "
          ++ src.name ++ " exists in DB but file does not exist.")) := by
    simp [processDataTypeAuto, processDataType, hrd, hfile]
  have hrun : runDataTypes pars.obsName pars.checkDownloadPars pars.downloadParsList
      fs fetchFiles (pars.downloadParsList.map (fun k => (k, pars.parsVals k)))
      src (dt :: rest) []
      = Except.error (PyExc.runtimeError (dt ++ " object for source "
          ++ src.name ++ " exists in DB but file does not exist.")) := by
    simp only [runDataTypes, hproc]
  unfold check_and_fetch_source
  rw [hfind, hdts]
  simp only [Option.getD_some]
  rw [hrun]
  rfl

/-- C3 witness: a database holding source s1 with a photometry record whose
backing file is absent from an empty file store; the call raises
RuntimeError and changes nothing. -/
theorem C3_missing_file_witness :
    check_and_fetch_source
        ⟨"DEMO", ["photometry"], false, [], false, false, fun _ => 0⟩
        ⟨[⟨"s1", Option.none,
            [⟨"DEMO", "photometry", "s1", "f.h5", "k1", Option.none⟩]⟩]⟩
        [] ⟨"s1", Option.none⟩ true (fun _ => ("f.h5", "k1"))
        (fun _ => Option.none) Option.none
      = ⟨⟨[⟨"s1", Option.none,
            [⟨"DEMO", "photometry", "s1", "f.h5", "k1", Option.none⟩]⟩]⟩,
          [], Except.error (PyExc.runtimeError ("photometry" ++ " object for source "
            ++ "s1" ++ " exists in DB but file does not exist.")), []⟩
    ∧ strHasSub ("photometry" ++ " object for source " ++ "s1"
        ++ " exists in DB but file does not exist.")
      "exists in DB but file does not exist" = true :=
  C3_missing_file_fail_fast
    ⟨"DEMO", ["photometry"], false, [], false, false, fun _ => 0⟩
    ⟨[⟨"s1", Option.none,
        [⟨"DEMO", "photometry", "s1", "f.h5", "k1", Option.none⟩]⟩]⟩
    [] ⟨"s1", Option.none⟩ true (fun _ => ("f.h5", "k1"))
    (fun _ => Option.none) Option.none
    ⟨"s1", Option.none, [⟨"DEMO", "photometry", "s1", "f.h5", "k1", Option.none⟩]⟩
    ⟨"DEMO", "photometry", "s1", "f.h5", "k1", Option.none⟩
    "photometry" [] rfl rfl rfl rfl

theorem removeRawData_name (s : SourceRec) (obs dt : String) :
    (s.removeRawData obs dt).name = s.name := rfl

theorem strHasSub_append_self (pat rest : String) :
    strHasSub (pat ++ rest) pat = true := by
  unfold strHasSub
  rw [String.data_append]
  exact charsHaveSub_of_isPrefix _ _ (isPrefixOf_append_self _ _)

theorem strHasSub_noObjectNamed (key fn : String) :
    strHasSub ("No object named " ++ key ++ " in the file " ++ fn)
      "No object named" = true := by
  have hmsg : ("No object named " ++ key ++ " in the file " ++ fn)
      = "No object named" ++ (" " ++ (key ++ (" in the file " ++ fn))) := by
    rw [String.append_assoc, String.append_assoc,
      show ("No object named " : String) = "No object named" ++ " " by decide,
      String.append_assoc]
  rw [hmsg]
  exact strHasSub_append_self _ _

/-- C4: when the record for (source, this observatory, data type) points at a
backing file that exists but does not hold the record key, the load raises a
KeyError containing No object named; check_and_fetch_source removes the stale
record, fetches fresh data, and returns normally (the KeyError is not
surfaced); a KeyError whose message lacks that marker is re-raised by the
per-data-type block. -/
theorem C4_stale_key_refetch (pars : FetchPars) (db : DB) (fs : FS) (row : CatRow)
    (fetchFiles : String → String × String) (saveFault : ℕ → Option PyExc)
    (commitFault : Option PyExc) (src : SourceRec) (rd : RawData) (dt : String)
    (msg : String)
    (hfind : db.sources.find? (fun s => s.name == row.name) = Option.some src)
    (hdts : pars.dataTypes = [dt])
    (hrd : src.getRawData pars.obsName dt = Option.some rd)
    (hfile : fileExists fs rd.filename = true)
    (hkey : fs.any (fun e => e.fst == rd.filename && e.snd == rd.filekey) = false) :
    (check_and_fetch_source pars db fs row false fetchFiles saveFault commitFault
        = ⟨db, fs,
            Except.ok (appendGuard (src.removeRawData pars.obsName dt) pars.obsName dt
              (mkFetchedRawData pars.obsName src.name dt (fetchFiles dt)
                (pars.downloadParsList.map (fun k => (k, pars.parsVals k))))),
            [mkFetchedRawData pars.obsName src.name dt (fetchFiles dt)
              (pars.downloadParsList.map (fun k => (k, pars.parsVals k)))]⟩)
    ∧ (strHasSub msg "No object named" = false →
        processDataType pars.obsName pars.checkDownloadPars pars.downloadParsList fs
          src dt (Except.error (PyExc.keyError msg)) (fetchFiles dt)
          (pars.downloadParsList.map (fun k => (k, pars.parsVals k)))
          = Except.error (PyExc.keyError msg)) := by
  constructor
  · have hload : loadFromStore fs rd = Except.error (PyExc.keyError
        ("No object named " ++ rd.filekey ++ " in the file " ++ rd.filename)) := by
      simp [loadFromStore, hkey]
    have hsubstr := strHasSub_noObjectNamed rd.filekey rd.filename
    have hproc : processDataTypeAuto pars.obsName pars.checkDownloadPars
        pars.downloadParsList fs src dt (fetchFiles dt)
        (pars.downloadParsList.map (fun k => (k, pars.parsVals k)))
        = Except.ok (appendGuard (src.removeRawData pars.obsName dt) pars.obsName dt
            (mkFetchedRawData pars.obsName src.name dt (fetchFiles dt)
              (pars.downloadParsList.map (fun k => (k, pars.parsVals k)))),
            Option.some (mkFetchedRawData pars.obsName src.name dt (fetchFiles dt)
              (pars.downloadParsList.map (fun k => (k, pars.parsVals k))))) := by
      simp [processDataTypeAuto, processDataType, hrd, hfile, hload,
        handleLoadResult, hsubstr, checkDownloadParsStep, finishDataType,
        removeRawData_name]
    have hrun : runDataTypes pars.obsName pars.checkDownloadPars pars.downloadParsList
        fs fetchFiles (pars.downloadParsList.map (fun k => (k, pars.parsVals k)))
        src [dt] []
        = Except.ok (appendGuard (src.removeRawData pars.obsName dt) pars.obsName dt
            (mkFetchedRawData pars.obsName src.name dt (fetchFiles dt)
              (pars.downloadParsList.map (fun k => (k, pars.parsVals k)))),
            [mkFetchedRawData pars.obsName src.name dt (fetchFiles dt)
              (pars.downloadParsList.map (fun k => (k, pars.parsVals k)))]) := by
      simp only [runDataTypes, hproc, List.nil_append, Option.toList_some]
    unfold check_and_fetch_source
    rw [hfind]
    simp only [Option.getD_some]
    rw [hdts, hrun]
    rfl
  · intro hmsg
    simp [processDataType, hrd, hfile, handleLoadResult, hmsg]

/-- C4 witness: the backing file f.h5 exists with only another key, so the
load of record key k1 raises the stale-record KeyError and the call
re-fetches; a KeyError reading boom is re-raised. -/
theorem C4_stale_key_witness :
    (check_and_fetch_source
        ⟨"DEMO", ["photometry"], false, [], false, false, fun _ => 0⟩
        ⟨[⟨"s1", Option.none,
            [⟨"DEMO", "photometry", "s1", "f.h5", "k1", Option.none⟩]⟩]⟩
        [("f.h5", "other")] ⟨"s1", Option.none⟩ false (fun _ => ("f.h5", "k2"))
        (fun _ => Option.none) Option.none
        = ⟨⟨[⟨"s1", Option.none,
              [⟨"DEMO", "photometry", "s1", "f.h5", "k1", Option.none⟩]⟩]⟩,
            [("f.h5", "other")],
            Except.ok (appendGuard
              (SourceRec.removeRawData
                ⟨"s1", Option.none,
                  [⟨"DEMO", "photometry", "s1", "f.h5", "k1", Option.none⟩]⟩
                "DEMO" "photometry") "DEMO" "photometry"
              (mkFetchedRawData "DEMO" "s1" "photometry" ("f.h5", "k2")
                (([] : List String).map (fun k => (k, (0 : Int)))))),
            [mkFetchedRawData "DEMO" "s1" "photometry" ("f.h5", "k2")
              (([] : List String).map (fun k => (k, (0 : Int))))]⟩)
    ∧ (strHasSub "boom" "No object named" = false →
        processDataType "DEMO" false [] [("f.h5", "other")]
          ⟨"s1", Option.none,
            [⟨"DEMO", "photometry", "s1", "f.h5", "k1", Option.none⟩]⟩
          "photometry" (Except.error (PyExc.keyError "boom")) ("f.h5", "k2")
          (([] : List String).map (fun k => (k, (0 : Int))))
          = Except.error (PyExc.keyError "boom")) :=
  C4_stale_key_refetch
    ⟨"DEMO", ["photometry"], false, [], false, false, fun _ => 0⟩
    ⟨[⟨"s1", Option.none,
        [⟨"DEMO", "photometry", "s1", "f.h5", "k1", Option.none⟩]⟩]⟩
    [("f.h5", "other")] ⟨"s1", Option.none⟩ (fun _ => ("f.h5", "k2"))
    (fun _ => Option.none) Option.none
    ⟨"s1", Option.none, [⟨"DEMO", "photometry", "s1", "f.h5", "k1", Option.none⟩]⟩
    ⟨"DEMO", "photometry", "s1", "f.h5", "k1", Option.none⟩
    "photometry" "boom" rfl rfl rfl rfl rfl

/-- The new_data list a fresh run fetches: one new RawData per data type. -/
def newRawDataList (obsName srcName : String) (fetchFiles : String → String × String)
    (dp : List (String × Int)) (dts : List String) : List RawData :=
  dts.map (fun dt => mkFetchedRawData obsName srcName dt (fetchFiles dt) dp)

theorem processDataTypeAuto_fresh (obs : String) (cdp : Bool) (parsList : List String)
    (fs : FS) (src : SourceRec) (dt : String) (ff : String × String)
    (dp : List (String × Int)) (h : src.getRawData obs dt = Option.none) :
    processDataTypeAuto obs cdp parsList fs src dt ff dp
      = Except.ok
          ({ src with raw := src.raw ++ [mkFetchedRawData obs src.name dt ff dp] },
            Option.some (mkFetchedRawData obs src.name dt ff dp)) := by
  have hany : src.raw.any (fun r => r.observatory == obs && r.dataType == dt) = false := by
    rw [List.any_eq_false]
    intro r hr
    have hfind := List.find?_eq_none.mp h r hr
    simpa using hfind
  simp [processDataTypeAuto, processDataType, h, finishDataType, appendGuard, hany]

theorem runDataTypes_fresh (obs : String) (cdp : Bool) (parsList : List String)
    (fs : FS) (fetchFiles : String → String × String) (dp : List (String × Int)) :
    ∀ (dts : List String), dts.Nodup →
      ∀ (src : SourceRec) (acc : List RawData),
        (∀ dt ∈ dts, src.getRawData obs dt = Option.none) →
        runDataTypes obs cdp parsList fs fetchFiles dp src dts acc
          = Except.ok
              ({ src with raw := src.raw ++ newRawDataList obs src.name fetchFiles dp dts },
                acc ++ newRawDataList obs src.name fetchFiles dp dts) := by
  intro dts
  induction dts with
  | nil =>
    intro _ src acc _
    simp [runDataTypes, newRawDataList]
  | cons dt rest ih =>
    intro hnd src acc hnone
    have h1 := processDataTypeAuto_fresh obs cdp parsList fs src dt (fetchFiles dt) dp
      (hnone dt (List.mem_cons_self dt rest))
    have hnd2 : rest.Nodup := (List.nodup_cons.mp hnd).2
    have hdtnotin : dt ∉ rest := (List.nodup_cons.mp hnd).1
    have hnone2 : ∀ dt2 ∈ rest,
        ({ src with raw := src.raw
            ++ [mkFetchedRawData obs src.name dt (fetchFiles dt) dp] } : SourceRec).getRawData
          obs dt2 = Option.none := by
      intro dt2 h2
      have hne : dt ≠ dt2 := fun hh => hdtnotin (hh ▸ h2)
      have ha := hnone dt2 (List.mem_cons_of_mem dt h2)
      unfold SourceRec.getRawData at ha ⊢
      rw [List.find?_append, ha]
      simp only [List.find?, mkFetchedRawData, Option.none_or]
      rw [beq_eq_false_iff_ne.mpr hne]
      simp
    have hrec := ih hnd2
      { src with raw := src.raw ++ [mkFetchedRawData obs src.name dt (fetchFiles dt) dp] }
      (acc ++ [mkFetchedRawData obs src.name dt (fetchFiles dt) dp]) hnone2
    simp only [runDataTypes, h1, Option.toList_some]
    rw [hrec]
    simp [newRawDataList, List.append_assoc]

theorem savePhase_seconds_typeError (db : DB) (fs : FS) (src : SourceRec)
    (newData : List RawData) (saveFault : ℕ → Option PyExc)
    (commitFault : Option PyExc) (r : ℚ) (hsrc : src.ra = Option.some r) :
    savePhase false true db fs src newData saveFault commitFault
      = ⟨db, fs, Option.some (PyExc.typeError
          "unsupported operand type for /: NoneType and int")⟩ := by
  unfold savePhase
  rw [hsrc]
  simp [computeRaComponents]

/-- C10: with save_ra_seconds enabled and save_ra_minutes disabled, every
call of check_and_fetch_source with save on a catalog row whose right
ascension is not None raises a TypeError (None divided by 60 while computing
the seconds component) before any file is written or any commit is
attempted: the database and the file store come back unchanged. -/
theorem C10_ra_seconds_without_minutes (pars : FetchPars) (db : DB) (fs : FS)
    (row : CatRow) (fetchFiles : String → String × String)
    (saveFault : ℕ → Option PyExc) (commitFault : Option PyExc) (r : ℚ)
    (hra : row.ra = Option.some r)
    (hsec : pars.saveRaSeconds = true) (hmin : pars.saveRaMinutes = false)
    (hfresh : db.sources.find? (fun s => s.name == row.name) = Option.none)
    (hnodup : pars.dataTypes.Nodup) :
    check_and_fetch_source pars db fs row true fetchFiles saveFault commitFault
      = ⟨db, fs,
          Except.error (PyExc.typeError
            "unsupported operand type for /: NoneType and int"),
          newRawDataList pars.obsName row.name fetchFiles
            (pars.downloadParsList.map (fun k => (k, pars.parsVals k)))
            pars.dataTypes⟩ := by
  have hrun := runDataTypes_fresh pars.obsName pars.checkDownloadPars
    pars.downloadParsList fs fetchFiles
    (pars.downloadParsList.map (fun k => (k, pars.parsVals k)))
    pars.dataTypes hnodup (newSourceFromCatRow row) []
    (fun dt _ => by simp [newSourceFromCatRow, SourceRec.getRawData])
  unfold check_and_fetch_source
  rw [hfresh]
  simp only [Option.getD_none]
  rw [hrun]
  simp only [afterLoop, if_pos]
  rw [hmin, hsec,
    savePhase_seconds_typeError db fs _ _ saveFault commitFault r
      (by simp [newSourceFromCatRow, hra])]
  simp [newSourceFromCatRow]

/-- C10 witness: a fresh catalog row with right ascension 1, seconds flag on
and minutes flag off; the call raises TypeError and leaves the empty
database and file store unchanged. -/
theorem C10_ra_seconds_witness :
    check_and_fetch_source
        ⟨"DEMO", ["photometry"], false, [], false, true, fun _ => 0⟩
        ⟨[]⟩ [] ⟨"s1", Option.some 1⟩ true (fun _ => ("f.h5", "k1"))
        (fun _ => Option.none) Option.none
      = ⟨⟨[]⟩, [],
          Except.error (PyExc.typeError
            "unsupported operand type for /: NoneType and int"),
          newRawDataList "DEMO" "s1" (fun _ => ("f.h5", "k1"))
            (([] : List String).map (fun k => (k, (0 : Int)))) ["photometry"]⟩ :=
  C10_ra_seconds_without_minutes
    ⟨"DEMO", ["photometry"], false, [], false, true, fun _ => 0⟩
    ⟨[]⟩ [] ⟨"s1", Option.some 1⟩ (fun _ => ("f.h5", "k1"))
    (fun _ => Option.none) Option.none 1 rfl rfl rfl rfl (by simp)

theorem runSaves_noFault (saveFault : ℕ → Option PyExc)
    (h : ∀ i, saveFault i = Option.none) :
    ∀ (data : List RawData) (i : ℕ) (fs : FS),
      runSaves saveFault fs i data = (data.foldl writeFile fs, Option.none) := by
  intro data
  induction data with
  | nil => intro i fs; rfl
  | cons rd rest ih =>
    intro i fs
    simp only [runSaves, h i, List.foldl_cons]
    exact ih (i + 1) (writeFile fs rd)

theorem savePhase_ok (mins secs : Bool) (db : DB) (fs : FS) (src : SourceRec)
    (newData : List RawData) (saveFault : ℕ → Option PyExc)
    (hra : ∃ v, computeRaComponents mins secs src.ra = Except.ok v)
    (hsf : ∀ i, saveFault i = Option.none) :
    savePhase mins secs db fs src newData saveFault Option.none
      = ⟨commitSource db src, newData.foldl writeFile fs, Option.none⟩ := by
  obtain ⟨v, hv⟩ := hra
  unfold savePhase
  rw [hv]
  unfold savePhaseCore
  rw [runSaves_noFault saveFault hsf newData 0 fs]

theorem computeRaComponents_ok (mins secs : Bool) (ra : Option ℚ)
    (h : secs = false ∨ mins = true) :
    ∃ v, computeRaComponents mins secs ra = Except.ok v := by
  cases ra with
  | none => exact ⟨_, rfl⟩
  | some r =>
    rcases h with h | h
    · subst h
      cases mins <;> exact ⟨_, rfl⟩
    · subst h
      cases secs <;> exact ⟨_, rfl⟩

theorem find?_filter_not_name (l : List SourceRec) (nm : String) :
    (l.filter (fun s => ! (s.name == nm))).find? (fun s => s.name == nm)
      = Option.none := by
  rw [List.find?_eq_none]
  intro x hx
  have hq := (List.mem_filter.mp hx).2
  simp at hq
  simp [hq]

theorem commitSource_find? (db : DB) (src : SourceRec) (nm : String)
    (h : src.name = nm) :
    (commitSource db src).sources.find? (fun s => s.name == nm)
      = Option.some src := by
  subst h
  unfold commitSource
  rw [List.find?_append, find?_filter_not_name]
  simp [List.find?]

theorem commitSource_idem (db : DB) (src : SourceRec) :
    commitSource (commitSource db src) src = commitSource db src := by
  unfold commitSource
  simp only [List.filter_append]
  rw [List.filter_filter]
  have h1 : (db.sources.filter
      (fun a => (! (a.name == src.name)) && ! (a.name == src.name)))
      = db.sources.filter (fun s => ! (s.name == src.name)) := by
    apply List.filter_congr
    intro x _
    rw [Bool.and_self]
  have h2 : ([src].filter (fun s => ! (s.name == src.name))) = [] := by
    simp [List.filter_cons]
  rw [h1, h2, List.append_nil]

theorem commitSource_filter_name (db : DB) (src : SourceRec) (nm : String)
    (h : src.name = nm) :
    (commitSource db src).sources.filter (fun s => s.name == nm) = [src] := by
  subst h
  unfold commitSource
  rw [List.filter_append, List.filter_filter]
  have h1 : (db.sources.filter
      (fun a => (a.name == src.name) && ! (a.name == src.name))) = [] := by
    rw [List.filter_eq_nil_iff]
    intro a _
    simp
  have h2 : ([src].filter (fun s => s.name == src.name)) = [src] := by
    simp [List.filter_cons]
  rw [h1, h2, List.nil_append]

theorem processDataTypeAuto_loaded (obs : String) (cdp : Bool)
    (parsList : List String) (fs : FS) (src : SourceRec) (dt : String)
    (ff : String × String) (dp : List (String × Int)) (rd : RawData)
    (hrd : src.getRawData obs dt = Option.some rd)
    (hpair : fs.any (fun e => e.fst == rd.filename && e.snd == rd.filekey) = true)
    (hdp : cdp = true → ∃ recorded, rd.downloadPars = Option.some recorded
        ∧ downloadParsMatch parsList recorded dp = true) :
    processDataTypeAuto obs cdp parsList fs src dt ff dp
      = Except.ok (src, Option.none) := by
  have hfile : fileExists fs rd.filename = true := by
    rw [fileExists, List.any_eq_true]
    obtain ⟨e, he, hpe⟩ := List.any_eq_true.mp hpair
    rw [Bool.and_eq_true] at hpe
    exact ⟨e, he, hpe.1⟩
  have hload : loadFromStore fs rd = Except.ok () := by
    simp [loadFromStore, hpair]
  have happend : appendGuard src obs dt rd = src := by
    unfold appendGuard
    have hrd2 : src.raw.find? (fun r => r.observatory == obs && r.dataType == dt)
        = Option.some rd := hrd
    have hany : src.raw.any (fun r => r.observatory == obs && r.dataType == dt)
        = true := by
      rw [List.any_eq_true]
      exact ⟨rd, List.mem_of_find?_eq_some hrd2,
        by simpa using List.find?_some hrd2⟩
    rw [hany]
    simp
  cases hc : cdp with
  | false =>
    simp [processDataTypeAuto, processDataType, hrd, hfile, hload,
      handleLoadResult, checkDownloadParsStep, finishDataType, happend]
  | true =>
    obtain ⟨recorded, hrec, hmatch⟩ := hdp hc
    simp [processDataTypeAuto, processDataType, hrd, hfile, hload,
      handleLoadResult, checkDownloadParsStep, hrec, hmatch, finishDataType,
      happend]

theorem runDataTypes_loaded (obs : String) (cdp : Bool) (parsList : List String)
    (fs : FS) (fetchFiles : String → String × String) (dp : List (String × Int)) :
    ∀ (dts : List String) (src : SourceRec) (acc : List RawData),
      (∀ dt ∈ dts, ∃ rd, src.getRawData obs dt = Option.some rd
        ∧ fs.any (fun e => e.fst == rd.filename && e.snd == rd.filekey) = true
        ∧ (cdp = true → ∃ recorded, rd.downloadPars = Option.some recorded
            ∧ downloadParsMatch parsList recorded dp = true)) →
      runDataTypes obs cdp parsList fs fetchFiles dp src dts acc
        = Except.ok (src, acc) := by
  intro dts
  induction dts with
  | nil => intro src acc _; rfl
  | cons dt rest ih =>
    intro src acc hall
    obtain ⟨rd, h1, h2, h3⟩ := hall dt (List.mem_cons_self dt rest)
    have hstep := processDataTypeAuto_loaded obs cdp parsList fs src dt
      (fetchFiles dt) dp rd h1 h2 h3
    simp only [runDataTypes, hstep, Option.toList_none, List.append_nil]
    exact ih src acc (fun dt2 hdt2 => hall dt2 (List.mem_cons_of_mem dt hdt2))

theorem lookupStr_map_self (vals : String → Int) :
    ∀ (l : List String) (k : String), k ∈ l →
      lookupStr (l.map (fun k2 => (k2, vals k2))) k = Option.some (vals k) := by
  intro l
  induction l with
  | nil => intro k hk; exact absurd hk (List.not_mem_nil k)
  | cons a rest ih =>
    intro k hk
    by_cases hak : a = k
    · subst hak
      simp [lookupStr, List.find?]
    · have hk2 : k ∈ rest := by
        rcases List.mem_cons.mp hk with h | h
        · exact absurd h.symm hak
        · exact h
      have := ih k hk2
      unfold lookupStr at this ⊢
      simp only [List.map_cons, List.find?]
      rw [beq_eq_false_iff_ne.mpr hak]
      exact this

theorem downloadParsMatch_self (parsList : List String) (vals : String → Int) :
    downloadParsMatch parsList (parsList.map (fun k => (k, vals k)))
      (parsList.map (fun k => (k, vals k))) = true := by
  rw [downloadParsMatch, List.all_eq_true]
  intro k hk
  rw [lookupStr_map_self vals parsList k hk]
  simp

theorem getRawData_newList (obs srcName : String)
    (fetchFiles : String → String × String) (dp : List (String × Int)) :
    ∀ (dts : List String), dts.Nodup → ∀ dt ∈ dts,
      (newRawDataList obs srcName fetchFiles dp dts).find?
          (fun r => r.observatory == obs && r.dataType == dt)
        = Option.some (mkFetchedRawData obs srcName dt (fetchFiles dt) dp) := by
  intro dts
  induction dts with
  | nil => intro _ dt hdt; exact absurd hdt (List.not_mem_nil dt)
  | cons d rest ih =>
    intro hnd dt hdt
    have hdni : d ∉ rest := (List.nodup_cons.mp hnd).1
    rcases List.mem_cons.mp hdt with h | h
    · subst h
      simp [newRawDataList, List.find?, mkFetchedRawData]
    · have hne : d ≠ dt := fun hh => hdni (hh ▸ h)
      have := ih (List.nodup_cons.mp hnd).2 dt h
      simp only [newRawDataList, List.map_cons, List.find?, mkFetchedRawData]
      rw [beq_eq_false_iff_ne.mpr hne]
      simpa [newRawDataList, mkFetchedRawData] using this

theorem count_newList (obs srcName : String)
    (fetchFiles : String → String × String) (dp : List (String × Int)) :
    ∀ (dts : List String), dts.Nodup → ∀ dt ∈ dts,
      ((newRawDataList obs srcName fetchFiles dp dts).filter
          (fun r => r.observatory == obs && r.dataType == dt)).length = 1 := by
  intro dts
  induction dts with
  | nil => intro _ dt hdt; exact absurd hdt (List.not_mem_nil dt)
  | cons d rest ih =>
    intro hnd dt hdt
    have hdni : d ∉ rest := (List.nodup_cons.mp hnd).1
    rcases List.mem_cons.mp hdt with h | h
    · subst h
      have hrest : ((newRawDataList obs srcName fetchFiles dp rest).filter
          (fun r => r.observatory == obs && r.dataType == dt)) = [] := by
        rw [List.filter_eq_nil_iff]
        intro x hx
        obtain ⟨dt2, hdt2, hx2⟩ := List.mem_map.mp hx
        subst hx2
        have hne : dt2 ≠ dt := fun hh => hdni (hh ▸ hdt2)
        simp [mkFetchedRawData, hne]
      simp [newRawDataList, List.filter_cons, mkFetchedRawData, hrest]
      intro a ha hh
      exact hdni (hh ▸ ha)
    · have hne : d ≠ dt := fun hh => hdni (hh ▸ h)
      have := ih (List.nodup_cons.mp hnd).2 dt h
      simp only [newRawDataList, List.map_cons, List.filter_cons, mkFetchedRawData]
      rw [beq_eq_false_iff_ne.mpr hne]
      simpa [newRawDataList, mkFetchedRawData] using this

theorem foldl_writeFile_any_mono (p : String × String → Bool) :
    ∀ (data : List RawData) (fs : FS), fs.any p = true →
      (data.foldl writeFile fs).any p = true := by
  intro data
  induction data with
  | nil => intro fs h; exact h
  | cons d rest ih =>
    intro fs h
    simp only [List.foldl_cons]
    apply ih
    simp [writeFile, List.any_cons, h]

theorem foldl_writeFile_mem :
    ∀ (data : List RawData) (fs : FS) (rd : RawData), rd ∈ data →
      (data.foldl writeFile fs).any
        (fun e => e.fst == rd.filename && e.snd == rd.filekey) = true := by
  intro data
  induction data with
  | nil => intro fs rd h; exact absurd h (List.not_mem_nil rd)
  | cons d rest ih =>
    intro fs rd h
    rcases List.mem_cons.mp h with h | h
    · subst h
      simp only [List.foldl_cons]
      apply foldl_writeFile_any_mono
      simp [writeFile, List.any_cons]
    · simp only [List.foldl_cons]
      exact ih (writeFile fs d) rd h

/-- Two successive calls of check_and_fetch_source on the same catalog row,
with save set both times and no collaborator faults on the commit side. -/
def fetchTwice (pars : FetchPars) (db : DB) (fs : FS) (row : CatRow)
    (fetchFiles : String → String × String) (saveFault : ℕ → Option PyExc) :
    FetchOutcome × FetchOutcome :=
  (check_and_fetch_source pars db fs row true fetchFiles saveFault Option.none,
    check_and_fetch_source pars
      (check_and_fetch_source pars db fs row true fetchFiles saveFault Option.none).db
      (check_and_fetch_source pars db fs row true fetchFiles saveFault Option.none).fs
      row true fetchFiles saveFault Option.none)

/-- C2: calling check_and_fetch_source twice for the same catalog row with
save both times leaves exactly one persisted RawData record per (source,
observatory, data type): the second call returns the already persisted
source, creates no new dataset, and changes neither the database nor the
file store; in the final database exactly one source carries the row name
and its raw collection holds exactly one record per data type for this
observatory. -/
theorem C2_idempotent_refetch (pars : FetchPars) (db : DB) (fs : FS) (row : CatRow)
    (fetchFiles : String → String × String) (saveFault : ℕ → Option PyExc)
    (hnodup : pars.dataTypes.Nodup)
    (hfresh : db.sources.find? (fun s => s.name == row.name) = Option.none)
    (hra : pars.saveRaSeconds = false ∨ pars.saveRaMinutes = true)
    (hsf : ∀ i, saveFault i = Option.none) :
    ∃ s : SourceRec,
      (fetchTwice pars db fs row fetchFiles saveFault).snd.result = Except.ok s
      ∧ (fetchTwice pars db fs row fetchFiles saveFault).snd.created = []
      ∧ (fetchTwice pars db fs row fetchFiles saveFault).snd.db
          = (fetchTwice pars db fs row fetchFiles saveFault).fst.db
      ∧ (fetchTwice pars db fs row fetchFiles saveFault).snd.fs
          = (fetchTwice pars db fs row fetchFiles saveFault).fst.fs
      ∧ (fetchTwice pars db fs row fetchFiles saveFault).snd.db.sources.filter
          (fun t => t.name == row.name) = [s]
      ∧ ∀ dt ∈ pars.dataTypes,
          (s.raw.filter (fun r => r.observatory == pars.obsName
              && r.dataType == dt)).length = 1 := by
  set dp := pars.downloadParsList.map (fun k => (k, pars.parsVals k)) with hdpdef
  set L := newRawDataList pars.obsName row.name fetchFiles dp pars.dataTypes
    with hLdef
  set s1 : SourceRec := ⟨row.name, row.ra, L⟩ with hs1def
  set db1 := commitSource db s1 with hdb1def
  set fs1 := L.foldl writeFile fs with hfs1def
  have hrun1 := runDataTypes_fresh pars.obsName pars.checkDownloadPars
    pars.downloadParsList fs fetchFiles dp pars.dataTypes hnodup
    (newSourceFromCatRow row) []
    (fun dt _ => by simp [newSourceFromCatRow, SourceRec.getRawData])
  have ho1 : check_and_fetch_source pars db fs row true fetchFiles saveFault
      Option.none = ⟨db1, fs1, Except.ok s1, L⟩ := by
    unfold check_and_fetch_source
    rw [hfresh]
    simp only [Option.getD_none]
    rw [← hdpdef, hrun1]
    simp only [afterLoop, if_pos]
    rw [savePhase_ok pars.saveRaMinutes pars.saveRaSeconds db fs _ _ saveFault
      (computeRaComponents_ok _ _ _ hra) hsf]
    simp [hdb1def, hfs1def, hs1def, hLdef, newSourceFromCatRow]
  have hfind2 : db1.sources.find? (fun s => s.name == row.name)
      = Option.some s1 :=
    commitSource_find? db s1 row.name (by rw [hs1def])
  have hall : ∀ dt ∈ pars.dataTypes, ∃ rd,
      s1.getRawData pars.obsName dt = Option.some rd
      ∧ fs1.any (fun e => e.fst == rd.filename && e.snd == rd.filekey) = true
      ∧ (pars.checkDownloadPars = true → ∃ recorded,
          rd.downloadPars = Option.some recorded
          ∧ downloadParsMatch pars.downloadParsList recorded dp = true) := by
    intro dt hdt
    refine ⟨mkFetchedRawData pars.obsName row.name dt (fetchFiles dt) dp,
      ?_, ?_, ?_⟩
    · rw [hs1def]
      show L.find? (fun r => r.observatory == pars.obsName && r.dataType == dt)
        = Option.some (mkFetchedRawData pars.obsName row.name dt (fetchFiles dt) dp)
      rw [hLdef]
      exact getRawData_newList pars.obsName row.name fetchFiles dp
        pars.dataTypes hnodup dt hdt
    · rw [hfs1def]
      apply foldl_writeFile_mem
      rw [hLdef]
      exact List.mem_map_of_mem _ hdt
    · intro _
      refine ⟨dp, rfl, ?_⟩
      rw [hdpdef]
      exact downloadParsMatch_self pars.downloadParsList pars.parsVals
  have hrun2 := runDataTypes_loaded pars.obsName pars.checkDownloadPars
    pars.downloadParsList fs1 fetchFiles dp pars.dataTypes s1 [] hall
  have ho2 : check_and_fetch_source pars db1 fs1 row true fetchFiles saveFault
      Option.none = ⟨db1, fs1, Except.ok s1, []⟩ := by
    unfold check_and_fetch_source
    rw [hfind2]
    simp only [Option.getD_some]
    rw [← hdpdef, hrun2]
    simp only [afterLoop, if_pos]
    rw [savePhase_ok pars.saveRaMinutes pars.saveRaSeconds db1 fs1 s1 []
      saveFault (computeRaComponents_ok _ _ _ hra) hsf]
    have hidem : commitSource db1 s1 = db1 := by
      rw [hdb1def]
      exact commitSource_idem db s1
    simp [hidem]
  have htwice : fetchTwice pars db fs row fetchFiles saveFault
      = (⟨db1, fs1, Except.ok s1, L⟩, ⟨db1, fs1, Except.ok s1, []⟩) := by
    unfold fetchTwice
    rw [ho1,
      show (⟨db1, fs1, Except.ok s1, L⟩ : FetchOutcome).db = db1 from rfl,
      show (⟨db1, fs1, Except.ok s1, L⟩ : FetchOutcome).fs = fs1 from rfl,
      ho2]
  refine ⟨s1, ?_, ?_, ?_, ?_, ?_, ?_⟩
  · rw [htwice]
  · rw [htwice]
  · rw [htwice]
  · rw [htwice]
  · rw [htwice]
    show db1.sources.filter (fun t => t.name == row.name) = [s1]
    rw [hdb1def]
    exact commitSource_filter_name db s1 row.name (by rw [hs1def])
  · intro dt hdt
    show (s1.raw.filter (fun r => r.observatory == pars.obsName
        && r.dataType == dt)).length = 1
    rw [hs1def]
    show (L.filter (fun r => r.observatory == pars.obsName
        && r.dataType == dt)).length = 1
    rw [hLdef]
    exact count_newList pars.obsName row.name fetchFiles dp pars.dataTypes
      hnodup dt hdt

/-- C2 witness: a fresh row s1 fetched and saved twice with one data type;
the second call returns the persisted source with exactly one photometry
record for the observatory and creates nothing new. -/
theorem C2_idempotent_witness :
    ∃ s : SourceRec,
      (fetchTwice ⟨"DEMO", ["photometry"], true, [], false, false, fun _ => 0⟩
          ⟨[]⟩ [] ⟨"s1", Option.none⟩ (fun _ => ("f.h5", "k1"))
          (fun _ => Option.none)).snd.result = Except.ok s
      ∧ (fetchTwice ⟨"DEMO", ["photometry"], true, [], false, false, fun _ => 0⟩
          ⟨[]⟩ [] ⟨"s1", Option.none⟩ (fun _ => ("f.h5", "k1"))
          (fun _ => Option.none)).snd.created = []
      ∧ (fetchTwice ⟨"DEMO", ["photometry"], true, [], false, false, fun _ => 0⟩
          ⟨[]⟩ [] ⟨"s1", Option.none⟩ (fun _ => ("f.h5", "k1"))
          (fun _ => Option.none)).snd.db
        = (fetchTwice ⟨"DEMO", ["photometry"], true, [], false, false, fun _ => 0⟩
          ⟨[]⟩ [] ⟨"s1", Option.none⟩ (fun _ => ("f.h5", "k1"))
          (fun _ => Option.none)).fst.db
      ∧ (fetchTwice ⟨"DEMO", ["photometry"], true, [], false, false, fun _ => 0⟩
          ⟨[]⟩ [] ⟨"s1", Option.none⟩ (fun _ => ("f.h5", "k1"))
          (fun _ => Option.none)).snd.fs
        = (fetchTwice ⟨"DEMO", ["photometry"], true, [], false, false, fun _ => 0⟩
          ⟨[]⟩ [] ⟨"s1", Option.none⟩ (fun _ => ("f.h5", "k1"))
          (fun _ => Option.none)).fst.fs
      ∧ (fetchTwice ⟨"DEMO", ["photometry"], true, [], false, false, fun _ => 0⟩
          ⟨[]⟩ [] ⟨"s1", Option.none⟩ (fun _ => ("f.h5", "k1"))
          (fun _ => Option.none)).snd.db.sources.filter
          (fun t => t.name == "s1") = [s]
      ∧ ∀ dt ∈ ["photometry"],
          (s.raw.filter (fun r => r.observatory == "DEMO"
              && r.dataType == dt)).length = 1 :=
  C2_idempotent_refetch ⟨"DEMO", ["photometry"], true, [], false, false, fun _ => 0⟩
    ⟨[]⟩ [] ⟨"s1", Option.none⟩ (fun _ => ("f.h5", "k1")) (fun _ => Option.none)
    (by simp) rfl (Or.inl rfl) (fun _ => rfl)

end VirtualObserver
